import Mathlib

/-!
Verification of the Fabric build-orchestration tool (`manage.py` / `ActionMan.py`):
a shallow embedding of its action resolver and of its build / run / clean
execution engine, with theorems checking the specified behaviour.

The embedding follows `manage.py` (the file the claims cite for the resolver and
the drivers).  External effects — the CMake configure step, the build driver,
process launch, and filesystem queries/removal — are parametrised by an
environment of oracles (`Env`), and every operation returns the ordered list of
external calls and console reports it makes (`Event`), its termination status
(`Outcome`: normal return, `sys.exit(code)`, or an uncaught Python exception),
and the updated environment (cleaning removes a directory).
-/

namespace Fabric

/-- The kind of an `Action`, one constructor per concrete `Action` subclass in
`manage.py`.  `run` carries the `build_type` field of `RunAction`. -/
inductive ActionKind where
  | clean
  | cleanDebug
  | cleanProfile
  | cleanRelease
  | cleanAll
  | build
  | buildAll
  | debug
  | profile
  | release
  | run (build_type : String)
deriving DecidableEq

/-- An `Action` as the resolver sees it: its kind plus the `execution_params`
list (used only by `RunAction`; `[]` for every entry of `action_map`). -/
structure Action where
  kind : ActionKind
  execution_params : List String
deriving DecidableEq

/-- `isinstance(action, CleanAction)`: `CleanDebugAction`, `CleanProfileAction`
and `CleanReleaseAction` subclass `CleanAction`; `CleanAllAction` does not. -/
def isCleanInst (a : Action) : Bool :=
  match a.kind with
  | .clean | .cleanDebug | .cleanProfile | .cleanRelease => true
  | _ => false

/-- `isinstance(action, CleanAllAction)`. -/
def isCleanAllInst (a : Action) : Bool :=
  match a.kind with
  | .cleanAll => true
  | _ => false

/-- `isinstance(action, BuildAction)`: only `BuildAction` itself —
`BuildAllAction`, `DebugAction`, `ProfileAction`, `ReleaseAction` subclass
`Action` directly, not `BuildAction`. -/
def isBuildInst (a : Action) : Bool :=
  match a.kind with
  | .build => true
  | _ => false

/-- `isinstance(action, BuildAllAction)`. -/
def isBuildAllInst (a : Action) : Bool :=
  match a.kind with
  | .buildAll => true
  | _ => false

/-- `isinstance(action, RunAction)`. -/
def isRunInst (a : Action) : Bool :=
  match a.kind with
  | .run _ => true
  | _ => false

/-- `Action.conflicts_with` in `manage.py` line 145: the base-class default,
never overridden by any subclass, so it is constantly `False`. -/
def conflicts_with (_existing_action _other_action : Action) : Bool := false

/-- The `action_map` dictionary built at the top of `parse_actions`. -/
def action_map (command : String) : Option Action :=
  if command = ("clean") then some ⟨.clean, []⟩
  else if command = ("clean-debug") then some ⟨.cleanDebug, []⟩
  else if command = ("clean-profile") then some ⟨.cleanProfile, []⟩
  else if command = ("clean-release") then some ⟨.cleanRelease, []⟩
  else if command = ("clean-all") then some ⟨.cleanAll, []⟩
  else if command = ("build") then some ⟨.build, []⟩
  else if command = ("build-all") then some ⟨.buildAll, []⟩
  else if command = ("debug") then some ⟨.debug, []⟩
  else if command = ("profile") then some ⟨.profile, []⟩
  else if command = ("release") then some ⟨.release, []⟩
  else if command = ("run") then some ⟨.run ("debug"), []⟩
  else if command = ("run-debug") then some ⟨.run ("debug"), []⟩
  else if command = ("run-profile") then some ⟨.run ("profile"), []⟩
  else if command = ("run-release") then some ⟨.run ("release"), []⟩
  else none

/-- A token that resolves to a known, non-run action kind. -/
def simpleToken (t : String) : Bool :=
  match action_map t with
  | some a => !(isRunInst a)
  | none => false

/-- A token that resolves to a `RunAction`. -/
def runToken (t : String) : Bool :=
  match action_map t with
  | some a => isRunInst a
  | none => false

/-- `actions[-1].execution_params.append(command)`: append one parameter to the
last action of the list (`[]` is unreachable: the flag that guards this call is
only set right after a run action has been appended). -/
def appendParam (acts : List Action) (p : String) : List Action :=
  match acts with
  | [] => []
  | a :: rest =>
    match rest with
    | [] => [{ a with execution_params := a.execution_params ++ [p] }]
    | b :: rest2 => a :: appendParam (b :: rest2) p

/-- `action.execution_params = []` on the just-appended run action
(`manage.py` line 300): reset the last action's parameter list. -/
def resetLastParams (acts : List Action) : List Action :=
  match acts with
  | [] => []
  | a :: rest =>
    match rest with
    | [] => [{ a with execution_params := [] }]
    | b :: rest2 => a :: resetLastParams (b :: rest2)

/-- The loop state of `parse_actions`: the output list and the three flags. -/
structure ParseState where
  actions : List Action
  run_action_found : Bool
  clean_all_found : Bool
  build_all_found : Bool

/-- One iteration of the `for command in commands` loop of `parse_actions`. -/
def parseStep (s : ParseState) (command : String) : ParseState :=
  if s.run_action_found then
    { s with actions := appendParam s.actions command }
  else
    match action_map command with
    | none => s
    | some action =>
      let caf := s.clean_all_found || isCleanAllInst action
      let baf := s.build_all_found || isBuildAllInst action
      let acts :=
        if s.actions.any (fun existing_action => conflicts_with existing_action action) then
          s.actions
        else
          s.actions ++ [action]
      if isRunInst action then
        ⟨resetLastParams acts, true, caf, baf⟩
      else
        ⟨acts, s.run_action_found, caf, baf⟩

/-- `parse_actions` from `manage.py`: the token loop followed by the two
subsumption passes (`clean-all` drops every `CleanAction` instance, `build-all`
drops every `BuildAction` instance). -/
def parse_actions (commands : List String) : List Action :=
  let s := commands.foldl parseStep ⟨[], false, false, false⟩
  let afterClean :=
    if s.clean_all_found then s.actions.filter (fun a => !(isCleanInst a)) else s.actions
  let afterBuild :=
    if s.build_all_found then afterClean.filter (fun a => !(isBuildInst a)) else afterClean
  afterBuild

/-- The action `action_map` associates to a token (`⟨.clean, []⟩` as a dummy
for unknown tokens, used only to describe resolver output on known tokens). -/
def actOf (t : String) : Action := (action_map t).getD ⟨.clean, []⟩

/-- The five tokens of the clean kind family (`clean-all` plus the four kinds
it subsumes). -/
def clean_family_tokens : List String :=
  ["clean-all", "clean", "clean-debug", "clean-profile", "clean-release"]

/-- `build-all`, the `build` kind it subsumes, and the separate
`debug`/`profile`/`release` kind family. -/
def build_family_tokens : List String :=
  ["build-all", "build", "debug", "profile", "release"]

/-- External calls and console reports observable during execution. -/
inductive Event where
  | configure (build_dir build_type : String) (options : List String)
  | buildCmd (build_dir : String)
  | launch (executable : String) (args : List String)
  | removeTree (directory : String)
  | cleaned (directory : String)
  | cleanFailed (directory : String)
deriving DecidableEq

/-- How an operation terminates: normal return, `sys.exit(code)`, or an
uncaught Python exception (which also ends the process with non-zero status). -/
inductive Outcome where
  | ok
  | exited (code : Nat)
  | crashed (msg : String)
deriving DecidableEq

/-- Oracles for the external world: platform, process exit statuses, and the
filesystem.  `launchRes` returns `none` when nothing can be spawned at the path
(`FileNotFoundError`), `some true` for exit status zero, and `some false` for a
non-zero exit status (`CalledProcessError`). -/
structure Env where
  isWindows : Bool
  configureOk : String → String → Bool
  buildOk : String → Bool
  launchRes : String → List String → Option Bool
  pathExists : String → Bool
  removeOk : String → Bool

/-- The observable result of executing a piece of the tool: the events in
order, the termination status, and the updated environment. -/
structure Result where
  trace : List Event
  outcome : Outcome
  env : Env

/-- Sequencing with Python termination semantics: the continuation runs only
when the first part returned normally. -/
def seq (r : Result) (k : Env → Result) : Result :=
  match r.outcome with
  | .ok => let r2 := k r.env; ⟨r.trace ++ r2.trace, r2.outcome, r2.env⟩
  | _ => r

/-- `DEBUG_DIR` (each absolute directory path is modelled by its
distinguishing final component). -/
def DEBUG_DIR : String := "debug"

/-- `PROFILE_DIR`. -/
def PROFILE_DIR : String := "profile"

/-- `RELEASE_DIR`. -/
def RELEASE_DIR : String := "release"

/-- `configure(build_dir, build_type, options)`: `os.makedirs` (unobserved),
then the CMake generator call; a non-zero generator exit is caught and turned
into `sys.exit(1)`. -/
def configure (env : Env) (build_dir build_type : String) (options : List String) : Result :=
  if env.configureOk build_dir build_type then
    ⟨[.configure build_dir build_type options], .ok, env⟩
  else
    ⟨[.configure build_dir build_type options], .exited 1, env⟩

/-- `build(build_dir, build_type, flags)`: configure, then `cmake --build`; a
non-zero build-driver exit is caught and turned into `sys.exit(1)`.  (A failed
configure has already exited: `SystemExit` is not a `CalledProcessError`, so it
propagates through `build`.) -/
def build (env : Env) (build_dir build_type : String) (flags : List String) : Result :=
  seq (configure env build_dir build_type flags) (fun e =>
    if e.buildOk build_dir then ⟨[.buildCmd build_dir], .ok, e⟩
    else ⟨[.buildCmd build_dir], .exited 1, e⟩)

/-- `debug()`: build the debug configuration. -/
def debug (env : Env) : Result :=
  build env DEBUG_DIR ("Debug") ["-DCMAKE_CXX_FLAGS_DEBUG=-g -O0"]

/-- `profile()`: build the profile configuration. -/
def profile (env : Env) : Result :=
  build env PROFILE_DIR ("RelWithDebInfo") ["-DCMAKE_CXX_FLAGS_RELWITHDEBINFO=-g -O3"]

/-- `release()`: build the release configuration. -/
def release (env : Env) : Result :=
  build env RELEASE_DIR ("Release") ["-DCMAKE_CXX_FLAGS_RELEASE=-O3"]

/-- `clean_directory(directory)` (identical in `manage.py` and `ActionMan.py`):
if the directory exists, walk it bottom-up removing everything and finally
remove the directory itself; then print the `Cleaned ...` report.  Any
exception is caught and reported as a per-directory failure message — never
fatal.  (A failed removal may leave part of the tree behind; the environment is
left unchanged in that case, which no claim observes.) -/
def clean_directory (env : Env) (directory : String) : Result :=
  if env.pathExists directory then
    if env.removeOk directory then
      ⟨[.removeTree directory, .cleaned directory], .ok,
        { env with pathExists := fun d => if d = directory then false else env.pathExists d }⟩
    else
      ⟨[.removeTree directory, .cleanFailed directory], .ok, env⟩
  else
    ⟨[.cleaned directory], .ok, env⟩

/-- `clean_debug()`. -/
def clean_debug (env : Env) : Result := clean_directory env DEBUG_DIR

/-- `clean_profile()`. -/
def clean_profile (env : Env) : Result := clean_directory env PROFILE_DIR

/-- `clean_release()`. -/
def clean_release (env : Env) : Result := clean_directory env RELEASE_DIR

/-- Python `str.lower()` (ASCII case folding, which covers every string the
tool compares). -/
def pyLower (s : String) : String := ⟨s.data.map Char.toLower⟩

/-- `build_dirs.get(build_type.lower(), DEBUG_DIR)` in `run`. -/
def build_dirs_get (key : String) : String :=
  if key = ("debug") then DEBUG_DIR
  else if key = ("profile") then PROFILE_DIR
  else if key = ("release") then RELEASE_DIR
  else DEBUG_DIR

/-- The executable path `run` computes: `os.path.join(build_dir, "bin",
"Fabric")`, with `.exe` appended when `os.name == "nt"`. -/
def exePath (env : Env) (build_type : String) : String :=
  build_dirs_get (pyLower build_type) ++ ("/bin/Fabric")
    ++ (if env.isWindows then (".exe") else (""))

/-- The module-level names of `manage.py` (imports, globals, functions and
classes — the keys of `globals()` there — plus the interpreter dunders). -/
def manage_globals : List String :=
  ["__name__", "__doc__", "__package__", "__loader__", "__spec__", "__file__",
   "__builtins__", "__annotations__", "os", "subprocess", "sys", "abc",
   "DEBUG_DIR", "PROFILE_DIR", "RELEASE_DIR", "configure", "print_separator",
   "run", "clean_directory", "clean_debug", "clean_profile", "clean_release",
   "build", "debug", "profile", "release", "Action", "CleanAction",
   "CleanAllAction", "CleanDebugAction", "CleanProfileAction",
   "CleanReleaseAction", "BuildAction", "BuildAllAction", "DebugAction",
   "ProfileAction", "ReleaseAction", "RunAction", "parse_actions",
   "execute_actions", "print_help"]

/-- `globals()[build_type.lower()]()` inside `run`: the three profile names
dispatch to their build entry points; a name that is not a module global makes
the dictionary lookup raise an uncaught `KeyError`.  A lookup of any *other*
module global would call an unrelated module member; no call site of `run` in
the program reaches that case and no claim depends on it, so it is kept as an
explicitly unmodelled crash. -/
def autoBuild (env : Env) (key : String) : Result :=
  if key = ("debug") then debug env
  else if key = ("profile") then profile env
  else if key = ("release") then release env
  else if key ∈ manage_globals then ⟨[], .crashed ("unmodelled: " ++ key), env⟩
  else ⟨[], .crashed ("KeyError: " ++ key), env⟩

/-- The final `subprocess.run([executable] + args, check=True)` of `run`, with
its handler: a non-zero exit of the executable (`CalledProcessError`) is caught
and becomes `sys.exit(1)`; a missing executable at launch time
(`FileNotFoundError`) crashes uncaught. -/
def launchStage (executable : String) (args : List String) (e : Env) : Result :=
  match e.launchRes executable args with
  | some true => ⟨[.launch executable args], .ok, e⟩
  | some false => ⟨[.launch executable args], .exited 1, e⟩
  | none => ⟨[.launch executable args], .crashed ("FileNotFoundError"), e⟩

/-- `run(build_type, execution_params)` from `manage.py`: compute the
executable path (falling back to `DEBUG_DIR` for unknown profile keys), build
first when the path does not exist, then launch the executable with the
parameter list as its argument vector. -/
def run (env : Env) (build_type : String) (execution_params : List String) : Result :=
  let executable := exePath env build_type
  let beforeLaunch : Result :=
    if env.pathExists executable then ⟨[], .ok, env⟩
    else autoBuild env (pyLower build_type)
  seq beforeLaunch (launchStage executable execution_params)

/-- `CleanAllAction.execute`: clean debug, profile, release in that order. -/
def CleanAllAction_execute (env : Env) : Result :=
  seq (clean_debug env) (fun e => seq (clean_profile e) clean_release)

/-- `BuildAllAction.execute`: build debug, then profile, then release. -/
def BuildAllAction_execute (env : Env) : Result :=
  seq (debug env) (fun e => seq (profile e) release)

/-- `action.execute()` for each concrete `Action` subclass of `manage.py`. -/
def Action_execute (env : Env) (a : Action) : Result :=
  match a.kind with
  | .clean => clean_debug env
  | .cleanDebug => clean_debug env
  | .cleanProfile => clean_profile env
  | .cleanRelease => clean_release env
  | .cleanAll => CleanAllAction_execute env
  | .build => debug env
  | .buildAll => BuildAllAction_execute env
  | .debug => debug env
  | .profile => profile env
  | .release => release env
  | .run bt => run env bt a.execution_params

/-- `execute_actions(actions)`: run the actions in order; a `sys.exit` (or an
uncaught exception) in one of them terminates the process, so the rest never
run. -/
def execute_actions (env : Env) (actions : List Action) : Result :=
  actions.foldl (fun r a => seq r (fun e => Action_execute e a)) ⟨[], .ok, env⟩

/-- The events one `clean_directory` call on `directory` produces, as a
function of the starting environment (used to state that `clean-all` performs
three independent such attempts). -/
def attempt (env : Env) (directory : String) : List Event :=
  if env.pathExists directory then
    if env.removeOk directory then [.removeTree directory, .cleaned directory]
    else [.removeTree directory, .cleanFailed directory]
  else [.cleaned directory]

/-- The `CMAKE_BUILD_TYPE` value the tool passes for each profile key. -/
def buildVariantOf (key : String) : String :=
  if key = ("debug") then ("Debug")
  else if key = ("profile") then ("RelWithDebInfo")
  else ("Release")

/-- The compiler-flag define the tool passes for each profile key. -/
def buildFlagsOf (key : String) : List String :=
  if key = ("debug") then ["-DCMAKE_CXX_FLAGS_DEBUG=-g -O0"]
  else if key = ("profile") then ["-DCMAKE_CXX_FLAGS_RELWITHDEBINFO=-g -O3"]
  else ["-DCMAKE_CXX_FLAGS_RELEASE=-O3"]

/-- A sample environment for concrete evaluations: Linux, everything succeeds,
no path exists yet. -/
def env0 : Env :=
  ⟨false, fun _ _ => true, fun _ => true, fun _ _ => some true, fun _ => false, fun _ => true⟩

example : parse_actions [] = [] := by rfl

example : parse_actions ["clean", "clean-all", "clean-debug"] = [⟨.cleanAll, []⟩] := by decide

example :
    parse_actions ["build", "run-release", "--flag", "clean"] =
      [⟨.build, []⟩, ⟨.run ("release"), ["--flag", "clean"]⟩] := by decide

example :
    parse_actions ["run", "a", "b", "c"] = [⟨.run ("debug"), ["a", "b", "c"]⟩] := by decide

example :
    parse_actions ["build", "build"] = [⟨.build, []⟩, ⟨.build, []⟩] := by decide

example : (execute_actions env0 (parse_actions [])).trace = [] := by rfl

example :
    (BuildAllAction_execute env0).trace =
      [.configure DEBUG_DIR ("Debug") ["-DCMAKE_CXX_FLAGS_DEBUG=-g -O0"],
       .buildCmd DEBUG_DIR,
       .configure PROFILE_DIR ("RelWithDebInfo") ["-DCMAKE_CXX_FLAGS_RELWITHDEBINFO=-g -O3"],
       .buildCmd PROFILE_DIR,
       .configure RELEASE_DIR ("Release") ["-DCMAKE_CXX_FLAGS_RELEASE=-O3"],
       .buildCmd RELEASE_DIR] := by decide

example : (run env0 ("foo") []).outcome = .crashed ("KeyError: foo") := by decide

example :
    (clean_directory env0 DEBUG_DIR).trace = [.cleaned DEBUG_DIR] := by decide

/-! ### Helper lemmas about the resolver loop -/

theorem any_conflicts_false (l : List Action) (a : Action) :
    (l.any fun existing_action => conflicts_with existing_action a) = false := by
  induction l with
  | nil => rfl
  | cons x t ih => simp [conflicts_with, ih]

theorem isClean_false_of_isCleanAll {a : Action} (h : isCleanAllInst a = true) :
    isCleanInst a = false := by
  rcases a with ⟨k, ps⟩
  cases k <;> simp_all [isCleanAllInst, isCleanInst]

theorem isBuild_false_of_isBuildAll {a : Action} (h : isBuildAllInst a = true) :
    isBuildInst a = false := by
  rcases a with ⟨k, ps⟩
  cases k <;> simp_all [isBuildAllInst, isBuildInst]

theorem isClean_false_of_isRun {a : Action} (h : isRunInst a = true) :
    isCleanInst a = false := by
  rcases a with ⟨k, ps⟩
  cases k <;> simp_all [isRunInst, isCleanInst]

theorem isBuild_false_of_isRun {a : Action} (h : isRunInst a = true) :
    isBuildInst a = false := by
  rcases a with ⟨k, ps⟩
  cases k <;> simp_all [isRunInst, isBuildInst]

theorem isCleanAll_false_of_isRun {a : Action} (h : isRunInst a = true) :
    isCleanAllInst a = false := by
  rcases a with ⟨k, ps⟩
  cases k <;> simp_all [isRunInst, isCleanAllInst]

theorem isBuildAll_false_of_isRun {a : Action} (h : isRunInst a = true) :
    isBuildAllInst a = false := by
  rcases a with ⟨k, ps⟩
  cases k <;> simp_all [isRunInst, isBuildAllInst]

theorem isRunInst_update (a : Action) (x : List String) :
    isRunInst { a with execution_params := x } = isRunInst a := rfl

theorem appendParam_append (l : List Action) (a : Action) (p : String) :
    appendParam (l ++ [a]) p = l ++ [{ a with execution_params := a.execution_params ++ [p] }] := by
  induction l with
  | nil => rfl
  | cons x l ih =>
      cases l with
      | nil => simp [appendParam]
      | cons y l =>
          simp only [List.cons_append] at ih ⊢
          simp only [appendParam]
          rw [ih]

theorem resetLastParams_append (l : List Action) (a : Action) :
    resetLastParams (l ++ [a]) = l ++ [{ a with execution_params := [] }] := by
  induction l with
  | nil => rfl
  | cons x l ih =>
      cases l with
      | nil => simp [resetLastParams]
      | cons y l =>
          simp only [List.cons_append] at ih ⊢
          simp only [resetLastParams]
          rw [ih]

theorem foldl_run_mode (rest : List String) :
    ∀ (l : List Action) (a : Action) (caf baf : Bool),
      rest.foldl parseStep ⟨l ++ [a], true, caf, baf⟩ =
        ⟨l ++ [{ a with execution_params := a.execution_params ++ rest }], true, caf, baf⟩ := by
  induction rest with
  | nil => intro l a caf baf; simp
  | cons p rest ih =>
      intro l a caf baf
      have h1 : parseStep ⟨l ++ [a], true, caf, baf⟩ p =
          ⟨l ++ [{ a with execution_params := a.execution_params ++ [p] }], true, caf, baf⟩ := by
        simp [parseStep, appendParam_append]
      rw [List.foldl_cons, h1, ih]
      simp

theorem foldl_no_run (l : List String) :
    ∀ (s : ParseState), s.run_action_found = false → (∀ t ∈ l, runToken t = false) →
      (l.foldl parseStep s).run_action_found = false ∧
        (l.foldl parseStep s).actions.filter isRunInst = s.actions.filter isRunInst := by
  induction l with
  | nil => intro s hs _; exact ⟨hs, rfl⟩
  | cons t l ih =>
      intro s hs hl
      have ht : runToken t = false := hl t (by simp)
      rcases hm : action_map t with _ | a
      · have hstep : parseStep s t = s := by simp [parseStep, hs, hm]
        rw [List.foldl_cons, hstep]
        exact ih s hs fun u hu => hl u (by simp [hu])
      · have hr : isRunInst a = false := by
          unfold runToken at ht; rw [hm] at ht; exact ht
        have hstep : parseStep s t =
            ⟨s.actions ++ [a], s.run_action_found,
             s.clean_all_found || isCleanAllInst a, s.build_all_found || isBuildAllInst a⟩ := by
          simp [parseStep, hs, hm, any_conflicts_false, hr]
        rw [List.foldl_cons, hstep]
        have hnext := ih ⟨s.actions ++ [a], s.run_action_found,
          s.clean_all_found || isCleanAllInst a, s.build_all_found || isBuildAllInst a⟩
          hs fun u hu => hl u (by simp [hu])
        refine ⟨hnext.1, hnext.2.trans ?_⟩
        simp [List.filter_append, hr]

theorem foldl_simple (l : List String) :
    ∀ (acc : List Action) (caf baf : Bool), (∀ t ∈ l, simpleToken t = true) →
      l.foldl parseStep ⟨acc, false, caf, baf⟩ =
        ⟨acc ++ l.map actOf, false,
         caf || l.any (fun t => isCleanAllInst (actOf t)),
         baf || l.any (fun t => isBuildAllInst (actOf t))⟩ := by
  induction l with
  | nil => intro acc caf baf _; simp
  | cons t l ih =>
      intro acc caf baf h
      have ht : simpleToken t = true := h t (by simp)
      rcases hm : action_map t with _ | a
      · unfold simpleToken at ht; rw [hm] at ht; exact absurd ht (by simp)
      · have hr : isRunInst a = false := by
          unfold simpleToken at ht; rw [hm] at ht; simpa using ht
        have ha : actOf t = a := by simp [actOf, hm]
        have hstep : parseStep ⟨acc, false, caf, baf⟩ t =
            ⟨acc ++ [a], false, caf || isCleanAllInst a, baf || isBuildAllInst a⟩ := by
          simp [parseStep, hm, any_conflicts_false, hr]
        rw [List.foldl_cons, hstep, ih _ _ _ fun u hu => h u (by simp [hu])]
        simp [ha, Bool.or_assoc]

theorem foldl_unknown (l : List String) :
    ∀ (acc : List Action) (caf baf : Bool), (∀ t ∈ l, action_map t = none) →
      l.foldl parseStep ⟨acc, false, caf, baf⟩ = ⟨acc, false, caf, baf⟩ := by
  induction l with
  | nil => intro acc caf baf _; rfl
  | cons t l ih =>
      intro acc caf baf h
      have hstep : parseStep ⟨acc, false, caf, baf⟩ t = ⟨acc, false, caf, baf⟩ := by
        simp [parseStep, h t (by simp)]
      rw [List.foldl_cons, hstep, ih _ _ _ fun u hu => h u (by simp [hu])]

theorem filter_run_clean (l : List Action) :
    ((l.filter fun a => !(isCleanInst a)).filter isRunInst) = l.filter isRunInst := by
  induction l with
  | nil => rfl
  | cons a l ih =>
      by_cases hr : isRunInst a = true
      · simp [List.filter_cons, isClean_false_of_isRun hr, hr, ih]
      · have hr' : isRunInst a = false := by simpa using hr
        by_cases hc : isCleanInst a = true <;>
          simp [List.filter_cons, hc, hr', ih]

theorem filter_run_build (l : List Action) :
    ((l.filter fun a => !(isBuildInst a)).filter isRunInst) = l.filter isRunInst := by
  induction l with
  | nil => rfl
  | cons a l ih =>
      by_cases hr : isRunInst a = true
      · simp [List.filter_cons, isBuild_false_of_isRun hr, hr, ih]
      · have hr' : isRunInst a = false := by simpa using hr
        by_cases hb : isBuildInst a = true <;>
          simp [List.filter_cons, hb, hr', ih]

theorem filter_run_and (l : List Action) (p : Action → Bool)
    (hp : ∀ a, isRunInst a = true → p a = true) :
    (l.filter fun a => isRunInst a && p a) = l.filter isRunInst := by
  induction l with
  | nil => rfl
  | cons a l ih =>
      by_cases hr : isRunInst a = true
      · simp [List.filter_cons, hr, hp a hr, ih]
      · have hr' : isRunInst a = false := by simpa using hr
        simp [List.filter_cons, hr', ih]

theorem parse_filter_run (commands : List String) :
    (parse_actions commands).filter isRunInst =
      ((commands.foldl parseStep ⟨[], false, false, false⟩).actions).filter isRunInst := by
  unfold parse_actions
  by_cases hc : (commands.foldl parseStep ⟨[], false, false, false⟩).clean_all_found = true <;>
    by_cases hb : (commands.foldl parseStep ⟨[], false, false, false⟩).build_all_found = true <;>
      simp [hc, hb, List.filter_filter]
  · exact filter_run_and _ (fun a => !(isBuildInst a) && !(isCleanInst a)) fun a h => by
      simp [isBuild_false_of_isRun h, isClean_false_of_isRun h]
  · exact filter_run_and _ (fun a => !(isCleanInst a)) fun a h => by
      simp [isClean_false_of_isRun h]
  · exact filter_run_and _ (fun a => !(isBuildInst a)) fun a h => by
      simp [isBuild_false_of_isRun h]

theorem filter_map_actOf (p : Action → Bool) (l : List String) :
    (l.map actOf).filter p = (l.filter fun t => p (actOf t)).map actOf := by
  induction l with
  | nil => rfl
  | cons t l ih => by_cases h : p (actOf t) = true <;> simp [h, ih]

/-! ### The claims -/

/-- C1, counterexample: `conflicts_with` is constantly false, so a token whose
kind is already present in the output list still appends a second action of
that kind — `["build", "build"]` resolves to two `build` actions, not one. -/
theorem c1_counterexample :
    parse_actions ["build", "build"] = [⟨.build, []⟩, ⟨.build, []⟩] ∧
    ((parse_actions ["build", "build"]).filter isBuildInst).length ≠ 1 := by decide

/-- C1, amended: every occurrence of a known non-run kind token appends its own
action, so resolving the same such token twice yields two actions of that kind,
one per occurrence (only a repeated run token is collapsed, its second
occurrence being captured as an execution parameter). -/
theorem c1_amended (t : String) (a : Action) (hmap : action_map t = some a)
    (hrun : isRunInst a = false) : parse_actions [t, t] = [a, a] := by
  have hsimple : simpleToken t = true := by
    unfold simpleToken; rw [hmap]; simp [hrun]
  have ha : actOf t = a := by simp [actOf, hmap]
  simp only [parse_actions]
  rw [foldl_simple [t, t] [] false false (by intro u hu; simp at hu; rw [hu]; exact hsimple)]
  by_cases hca : isCleanAllInst a = true <;> by_cases hba : isBuildAllInst a = true <;>
    simp [ha, hca, hba, List.filter_cons,
      isClean_false_of_isCleanAll, isBuild_false_of_isBuildAll]

/-- C1, witness for the amended theorem at the token `build`. -/
theorem c1_amended_witness :
    action_map ("build") = some ⟨.build, []⟩ ∧ isRunInst ⟨.build, []⟩ = false ∧
      parse_actions ["build", "build"] = [⟨.build, []⟩, ⟨.build, []⟩] :=
  ⟨by decide, by decide, c1_amended ("build") ⟨.build, []⟩ (by decide) (by decide)⟩

/-- C2: once a run token is consumed (first run token of the sequence), the
whole resolved list is the resolution of the tokens before it followed by one
run action of that token's kind whose `execution_params` are exactly the
tokens after it, in order — so later tokens are captured verbatim as
parameters and never become actions, even when they name known kinds, and
earlier tokens contribute no parameters; in particular the resolved list
contains exactly one run action (a bare `run` gives kind `run-debug`,
instanced in the witness). -/
theorem c2_run_params (pre rest : List String) (t : String) (a : Action)
    (hpre : ∀ u ∈ pre, runToken u = false)
    (ht : action_map t = some a) (hrun : isRunInst a = true) :
    parse_actions (pre ++ t :: rest) = parse_actions pre ++ [⟨a.kind, rest⟩] ∧
    (parse_actions (pre ++ t :: rest)).filter isRunInst = [⟨a.kind, rest⟩] := by
  obtain ⟨h1run, h1filter⟩ := foldl_no_run pre ⟨[], false, false, false⟩ rfl hpre
  set s1 := pre.foldl parseStep ⟨[], false, false, false⟩ with hs1
  have hca : isCleanAllInst a = false := isCleanAll_false_of_isRun hrun
  have hba : isBuildAllInst a = false := isBuildAll_false_of_isRun hrun
  have hstep : parseStep s1 t =
      ⟨s1.actions ++ [{ a with execution_params := [] }], true,
       s1.clean_all_found, s1.build_all_found⟩ := by
    simp [parseStep, h1run, ht, any_conflicts_false, hrun, hca, hba, resetLastParams_append]
  have hfold : (pre ++ t :: rest).foldl parseStep ⟨[], false, false, false⟩ =
      ⟨s1.actions ++ [⟨a.kind, rest⟩], true, s1.clean_all_found, s1.build_all_found⟩ := by
    rw [List.foldl_append, ← hs1, List.foldl_cons, hstep, foldl_run_mode rest]
    simp
  have hkind : isRunInst (⟨a.kind, rest⟩ : Action) = true := hrun
  have hmain : parse_actions (pre ++ t :: rest) = parse_actions pre ++ [⟨a.kind, rest⟩] := by
    simp only [parse_actions, hfold, ← hs1]
    by_cases hcaf : s1.clean_all_found = true <;> by_cases hbaf : s1.build_all_found = true <;>
      simp [hcaf, hbaf, List.filter_append, isClean_false_of_isRun hkind,
        isBuild_false_of_isRun hkind]
  have hpfr : (parse_actions pre).filter isRunInst = [] := by
    rw [parse_filter_run, ← hs1]
    simpa using h1filter
  refine ⟨hmain, ?_⟩
  rw [hmain, List.filter_append, hpfr]
  simp [hkind]

/-- C2, witness: the two specified sequences — `build` before `run-release`
resolves normally and `clean` after it is captured as a parameter, and a bare
`run` with trailing tokens yields the single `run-debug` action carrying
exactly those tokens. -/
theorem c2_witness :
    parse_actions (["build"] ++ ("run-release") :: ["--flag", "clean"]) =
      parse_actions ["build"] ++ [⟨ActionKind.run ("release"), ["--flag", "clean"]⟩] ∧
    (parse_actions ([] ++ ("run") :: ["a", "b", "c"])).filter isRunInst =
      [⟨ActionKind.run ("debug"), ["a", "b", "c"]⟩] :=
  ⟨(c2_run_params ["build"] ["--flag", "clean"] ("run-release") ⟨.run ("release"), []⟩
      (by intro u hu; simp at hu; rw [hu]; decide) (by decide) (by decide)).1,
   (c2_run_params [] ["a", "b", "c"] ("run") ⟨.run ("debug"), []⟩
      (by intro u hu; simp at hu) (by decide) (by decide)).2⟩

/-- C3: a token sequence consisting of `clean-all` together with any subset of
the other clean-family tokens, in any order, resolves to exactly one action, of
kind `clean-all`. -/
theorem c3_clean_all_wins (l : List String) (hmem : ("clean-all" : String) ∈ l)
    (hsub : ∀ t ∈ l, t ∈ clean_family_tokens) (hnd : l.Nodup) :
    parse_actions l = [⟨.cleanAll, []⟩] := by
  have hsimple : ∀ t ∈ l, simpleToken t = true := by
    intro t htl
    have h5 := hsub t htl
    simp [clean_family_tokens] at h5
    rcases h5 with rfl | rfl | rfl | rfl | rfl <;> decide
  have hcaf : (l.any fun t => isCleanAllInst (actOf t)) = true :=
    List.any_eq_true.mpr ⟨_, hmem, by decide⟩
  have hbaf : (l.any fun t => isBuildAllInst (actOf t)) = false := by
    rw [List.any_eq_false]
    intro t htl
    have h5 := hsub t htl
    simp [clean_family_tokens] at h5
    rcases h5 with rfl | rfl | rfl | rfl | rfl <;> decide
  simp only [parse_actions]
  rw [foldl_simple l [] false false hsimple]
  simp [hcaf, hbaf]
  rw [filter_map_actOf]
  have hpt : ∀ t ∈ l, (!(isCleanInst (actOf t))) = (t == ("clean-all")) := by
    intro t htl
    have h5 := hsub t htl
    simp [clean_family_tokens] at h5
    rcases h5 with rfl | rfl | rfl | rfl | rfl <;> decide
  rw [List.filter_congr hpt, List.filter_beq, List.count_eq_one_of_mem hnd hmem]
  decide

/-- C3, witness at the sequence `["clean", "clean-all", "clean-release"]`. -/
theorem c3_witness :
    parse_actions ["clean", "clean-all", "clean-release"] = [⟨.cleanAll, []⟩] :=
  c3_clean_all_wins ["clean", "clean-all", "clean-release"] (by decide) (by decide) (by decide)

/-- C4: a token sequence consisting of `build-all`, possibly `build`, and any
subset of the `debug`/`profile`/`release` tokens resolves to a list with
exactly one `build-all` action, no `build` action, and one action per other
token, in order (the `debug`/`profile`/`release` kinds are untouched by the
`build-all` subsumption pass). -/
theorem c4_build_all_wins (l : List String) (hmem : ("build-all" : String) ∈ l)
    (hsub : ∀ t ∈ l, t ∈ build_family_tokens) (hnd : l.Nodup) :
    (parse_actions l).filter isBuildAllInst = [⟨.buildAll, []⟩] ∧
    (parse_actions l).filter isBuildInst = [] ∧
    parse_actions l = ((l.filter fun t => !(t == ("build"))).map actOf) := by
  have hsimple : ∀ t ∈ l, simpleToken t = true := by
    intro t htl
    have h5 := hsub t htl
    simp [build_family_tokens] at h5
    rcases h5 with rfl | rfl | rfl | rfl | rfl <;> decide
  have hcaf : (l.any fun t => isCleanAllInst (actOf t)) = false := by
    rw [List.any_eq_false]
    intro t htl
    have h5 := hsub t htl
    simp [build_family_tokens] at h5
    rcases h5 with rfl | rfl | rfl | rfl | rfl <;> decide
  have hbaf : (l.any fun t => isBuildAllInst (actOf t)) = true :=
    List.any_eq_true.mpr ⟨_, hmem, by decide⟩
  have hparse : parse_actions l = (l.map actOf).filter fun a => !(isBuildInst a) := by
    simp only [parse_actions]
    rw [foldl_simple l [] false false hsimple]
    simp [hcaf, hbaf]
  have hthird : parse_actions l = ((l.filter fun t => !(t == ("build"))).map actOf) := by
    rw [hparse, filter_map_actOf]
    congr 1
    apply List.filter_congr
    intro t htl
    have h5 := hsub t htl
    simp [build_family_tokens] at h5
    rcases h5 with rfl | rfl | rfl | rfl | rfl <;> decide
  refine ⟨?_, ?_, hthird⟩
  · rw [hparse, List.filter_filter, filter_map_actOf]
    have hpt : ∀ t ∈ l, (isBuildAllInst (actOf t) && !(isBuildInst (actOf t))) =
        (t == ("build-all")) := by
      intro t htl
      have h5 := hsub t htl
      simp [build_family_tokens] at h5
      rcases h5 with rfl | rfl | rfl | rfl | rfl <;> decide
    rw [List.filter_congr hpt, List.filter_beq, List.count_eq_one_of_mem hnd hmem]
    decide
  · rw [hparse, List.filter_filter]
    have hpt : ∀ t, (isBuildInst t && !(isBuildInst t)) = false := by
      intro t; rcases hb : isBuildInst t <;> simp [hb]
    simp [hpt]

/-- C4, witness at the sequence `["debug", "build-all", "build", "release"]`. -/
theorem c4_witness :
    (parse_actions ["debug", "build-all", "build", "release"]).filter isBuildAllInst =
      [⟨.buildAll, []⟩] ∧
    (parse_actions ["debug", "build-all", "build", "release"]).filter isBuildInst = [] ∧
    parse_actions ["debug", "build-all", "build", "release"] =
      ((["debug", "build-all", "build", "release"].filter fun t => !(t == ("build"))).map actOf) :=
  c4_build_all_wins ["debug", "build-all", "build", "release"]
    (by decide) (by decide) (by decide)

/-- C8: a token sequence in which no token names a known kind resolves to the
empty action list — every unrecognized token is dropped with no action and no
error — and executing that empty list performs zero driver calls and succeeds. -/
theorem c8_unknown_tokens (l : List String) (env : Env) (h : ∀ t ∈ l, action_map t = none) :
    parse_actions l = [] ∧
    (execute_actions env (parse_actions l)).trace = [] ∧
    (execute_actions env (parse_actions l)).outcome = .ok := by
  have hp : parse_actions l = [] := by
    simp only [parse_actions]
    rw [foldl_unknown l [] false false h]
    simp
  refine ⟨hp, ?_, ?_⟩ <;> rw [hp] <;> rfl

/-- C8, witness at `["frobnicate", "--help"]` (and, through the empty token
list, the empty-sequence edge case). -/
theorem c8_witness :
    parse_actions ["frobnicate", "--help"] = [] ∧
    (execute_actions env0 (parse_actions ["frobnicate", "--help"])).trace = [] ∧
    (execute_actions env0 (parse_actions ["frobnicate", "--help"])).outcome = .ok :=
  c8_unknown_tokens ["frobnicate", "--help"] env0 (by decide)

/-! ### Helper lemmas about the drivers -/

theorem build_ok (env : Env) (d ty : String) (fl : List String)
    (h1 : env.configureOk d ty = true) (h2 : env.buildOk d = true) :
    build env d ty fl = ⟨[.configure d ty fl, .buildCmd d], .ok, env⟩ := by
  simp [build, configure, seq, h1, h2]

theorem build_conf_fail (env : Env) (d ty : String) (fl : List String)
    (h1 : env.configureOk d ty = false) :
    build env d ty fl = ⟨[.configure d ty fl], .exited 1, env⟩ := by
  simp [build, configure, seq, h1]

theorem build_cmd_fail (env : Env) (d ty : String) (fl : List String)
    (h1 : env.configureOk d ty = true) (h2 : env.buildOk d = false) :
    build env d ty fl = ⟨[.configure d ty fl, .buildCmd d], .exited 1, env⟩ := by
  simp [build, configure, seq, h1, h2]

/-- C5: `build-all` builds debug, then profile, then release, in that order
when all succeed; a failure of a profile's configure or build step exits with
status 1 and the later profiles are never attempted (no configure or build
call for them appears in the trace). -/
theorem c5_build_all_fatal (env : Env) :
    ((env.configureOk DEBUG_DIR ("Debug") = true → env.buildOk DEBUG_DIR = true →
      env.configureOk PROFILE_DIR ("RelWithDebInfo") = true → env.buildOk PROFILE_DIR = true →
      env.configureOk RELEASE_DIR ("Release") = true → env.buildOk RELEASE_DIR = true →
        (BuildAllAction_execute env).trace =
          [.configure DEBUG_DIR ("Debug") ["-DCMAKE_CXX_FLAGS_DEBUG=-g -O0"],
           .buildCmd DEBUG_DIR,
           .configure PROFILE_DIR ("RelWithDebInfo") ["-DCMAKE_CXX_FLAGS_RELWITHDEBINFO=-g -O3"],
           .buildCmd PROFILE_DIR,
           .configure RELEASE_DIR ("Release") ["-DCMAKE_CXX_FLAGS_RELEASE=-O3"],
           .buildCmd RELEASE_DIR] ∧
        (BuildAllAction_execute env).outcome = .ok) ∧
     ((env.configureOk PROFILE_DIR ("RelWithDebInfo") = false ∨ env.buildOk PROFILE_DIR = false) →
        (BuildAllAction_execute env).outcome = .exited 1 ∧
        Event.configure RELEASE_DIR ("Release") ["-DCMAKE_CXX_FLAGS_RELEASE=-O3"] ∉
          (BuildAllAction_execute env).trace ∧
        Event.buildCmd RELEASE_DIR ∉ (BuildAllAction_execute env).trace) ∧
     ((env.configureOk DEBUG_DIR ("Debug") = false ∨ env.buildOk DEBUG_DIR = false) →
        (BuildAllAction_execute env).outcome = .exited 1 ∧
        Event.configure PROFILE_DIR ("RelWithDebInfo") ["-DCMAKE_CXX_FLAGS_RELWITHDEBINFO=-g -O3"] ∉
          (BuildAllAction_execute env).trace ∧
        Event.buildCmd PROFILE_DIR ∉ (BuildAllAction_execute env).trace ∧
        Event.configure RELEASE_DIR ("Release") ["-DCMAKE_CXX_FLAGS_RELEASE=-O3"] ∉
          (BuildAllAction_execute env).trace ∧
        Event.buildCmd RELEASE_DIR ∉ (BuildAllAction_execute env).trace)) := by
  refine ⟨?_, ?_, ?_⟩
  · intro h1 h2 h3 h4 h5 h6
    rw [BuildAllAction_execute, debug]
    rw [build_ok env _ _ _ h1 h2]
    simp only [seq]
    rw [profile, build_ok env _ _ _ h3 h4]
    simp only [seq]
    rw [release, build_ok env _ _ _ h5 h6]
    simp [seq]
  · intro h
    rcases h with h | h
    · cases hcd : env.configureOk DEBUG_DIR ("Debug") <;>
        cases hbd : env.buildOk DEBUG_DIR <;>
          simp [BuildAllAction_execute, debug, profile, release, build, configure, seq,
            hcd, hbd, h] <;> decide
    · cases hcd : env.configureOk DEBUG_DIR ("Debug") <;>
        cases hbd : env.buildOk DEBUG_DIR <;>
          cases hcp : env.configureOk PROFILE_DIR ("RelWithDebInfo") <;>
            simp [BuildAllAction_execute, debug, profile, release, build, configure, seq,
              hcd, hbd, hcp, h] <;> decide
  · intro h
    rcases h with h | h
    · simp [BuildAllAction_execute, debug, profile, release, build, configure, seq, h]
    · cases hcd : env.configureOk DEBUG_DIR ("Debug") <;>
        simp [BuildAllAction_execute, debug, profile, release, build, configure, seq, hcd, h] <;>
          decide

/-- C5, witness: an environment whose profile-stage build driver fails (debug
succeeds) exits with status 1 and never touches the release profile. -/
theorem c5_witness :
    ((BuildAllAction_execute
        ⟨false, fun _ _ => true, fun d => !(d == PROFILE_DIR), fun _ _ => some true,
         fun _ => false, fun _ => true⟩).outcome = Outcome.exited 1 ∧
     Event.configure RELEASE_DIR ("Release") ["-DCMAKE_CXX_FLAGS_RELEASE=-O3"] ∉
       (BuildAllAction_execute
         ⟨false, fun _ _ => true, fun d => !(d == PROFILE_DIR), fun _ _ => some true,
          fun _ => false, fun _ => true⟩).trace ∧
     Event.buildCmd RELEASE_DIR ∉
       (BuildAllAction_execute
         ⟨false, fun _ _ => true, fun d => !(d == PROFILE_DIR), fun _ _ => some true,
          fun _ => false, fun _ => true⟩).trace) :=
  (c5_build_all_fatal _).2.1 (Or.inr (by decide))

/-- C6: `clean-all` cleans debug, profile and release in that order; each of
the three directories gets its own independent attempt from the starting
filesystem state, a failed removal produces exactly one failure report for
that directory without stopping the remaining directories, and the whole
operation always returns normally (never exits). -/
theorem c6_clean_all_nonfatal (env : Env) :
    (CleanAllAction_execute env).outcome = .ok ∧
    (CleanAllAction_execute env).trace =
      attempt env DEBUG_DIR ++ attempt env PROFILE_DIR ++ attempt env RELEASE_DIR ∧
    (∀ d ∈ [DEBUG_DIR, PROFILE_DIR, RELEASE_DIR],
      (((CleanAllAction_execute env).trace.filter fun e => e == Event.cleanFailed d).length =
        if env.pathExists d && !(env.removeOk d) then 1 else 0) ∧
      (env.pathExists d = true → Event.removeTree d ∈ (CleanAllAction_execute env).trace)) := by
  have hpd : PROFILE_DIR ≠ DEBUG_DIR := by decide
  have hrd : RELEASE_DIR ≠ DEBUG_DIR := by decide
  have hrp : RELEASE_DIR ≠ PROFILE_DIR := by decide
  cases hp1 : env.pathExists DEBUG_DIR <;> cases hr1 : env.removeOk DEBUG_DIR <;>
    cases hp2 : env.pathExists PROFILE_DIR <;> cases hr2 : env.removeOk PROFILE_DIR <;>
      cases hp3 : env.pathExists RELEASE_DIR <;> cases hr3 : env.removeOk RELEASE_DIR <;>
        simp [CleanAllAction_execute, clean_debug, clean_profile, clean_release,
          clean_directory, seq, attempt, hp1, hr1, hp2, hr2, hp3, hr3, hpd, hrd, hrp] <;> decide

/-- C6, witness: with all three directories present and the profile removal
failing, the failure is reported once for profile only and release is still
attempted. -/
theorem c6_witness :
    (CleanAllAction_execute
        ⟨false, fun _ _ => true, fun _ => true, fun _ _ => some true,
         fun _ => true, fun d => !(d == PROFILE_DIR)⟩).outcome = Outcome.ok ∧
    (CleanAllAction_execute
        ⟨false, fun _ _ => true, fun _ => true, fun _ _ => some true,
         fun _ => true, fun d => !(d == PROFILE_DIR)⟩).trace =
      attempt ⟨false, fun _ _ => true, fun _ => true, fun _ _ => some true,
         fun _ => true, fun d => !(d == PROFILE_DIR)⟩ DEBUG_DIR ++
      attempt ⟨false, fun _ _ => true, fun _ => true, fun _ _ => some true,
         fun _ => true, fun d => !(d == PROFILE_DIR)⟩ PROFILE_DIR ++
      attempt ⟨false, fun _ _ => true, fun _ => true, fun _ _ => some true,
         fun _ => true, fun d => !(d == PROFILE_DIR)⟩ RELEASE_DIR ∧
    (∀ d ∈ [DEBUG_DIR, PROFILE_DIR, RELEASE_DIR],
      (((CleanAllAction_execute
          ⟨false, fun _ _ => true, fun _ => true, fun _ _ => some true,
           fun _ => true, fun d => !(d == PROFILE_DIR)⟩).trace.filter
            fun e => e == Event.cleanFailed d).length =
        if (⟨false, fun _ _ => true, fun _ => true, fun _ _ => some true,
             fun _ => true, fun d => !(d == PROFILE_DIR)⟩ : Env).pathExists d &&
            !((⟨false, fun _ _ => true, fun _ => true, fun _ _ => some true,
             fun _ => true, fun d => !(d == PROFILE_DIR)⟩ : Env).removeOk d) then 1 else 0) ∧
      ((⟨false, fun _ _ => true, fun _ => true, fun _ _ => some true,
           fun _ => true, fun d => !(d == PROFILE_DIR)⟩ : Env).pathExists d = true →
        Event.removeTree d ∈
          (CleanAllAction_execute
            ⟨false, fun _ _ => true, fun _ => true, fun _ _ => some true,
             fun _ => true, fun d => !(d == PROFILE_DIR)⟩).trace)) :=
  c6_clean_all_nonfatal _

/-- C9: cleaning a directory that does not exist removes nothing, reports the
directory as cleaned, leaves the environment unchanged and returns normally;
whenever a first clean succeeds (directory absent, or present and removable),
cleaning the same directory again right away also succeeds with the
`Cleaned ...` report and no failure report. -/
theorem c9_clean_missing_noop (env : Env) (directory : String) :
    (env.pathExists directory = false →
      clean_directory env directory = ⟨[.cleaned directory], .ok, env⟩) ∧
    (env.pathExists directory = false ∨ env.removeOk directory = true →
      Event.cleaned directory ∈ (clean_directory env directory).trace ∧
      Event.cleanFailed directory ∉ (clean_directory env directory).trace ∧
      (clean_directory (clean_directory env directory).env directory).trace =
        [.cleaned directory] ∧
      (clean_directory (clean_directory env directory).env directory).outcome = .ok) := by
  cases hp : env.pathExists directory <;> cases hr : env.removeOk directory <;>
    simp [clean_directory, hp, hr]

/-- C9, witness: cleaning the absent debug directory of `env0`, twice. -/
theorem c9_witness :
    clean_directory env0 DEBUG_DIR = ⟨[.cleaned DEBUG_DIR], .ok, env0⟩ ∧
    (clean_directory (clean_directory env0 DEBUG_DIR).env DEBUG_DIR).trace =
      [.cleaned DEBUG_DIR] :=
  ⟨(c9_clean_missing_noop env0 DEBUG_DIR).1 rfl,
   ((c9_clean_missing_noop env0 DEBUG_DIR).2 (Or.inl rfl)).2.2.1⟩

theorem launchStage_trace (x : String) (ps : List String) (e : Env) :
    (launchStage x ps e).trace = [.launch x ps] := by
  rcases hl : e.launchRes x ps with _ | b
  · simp [launchStage, hl]
  · cases b <;> simp [launchStage, hl]

/-- C7: for a known profile, `run` computes the executable path
`<profile dir>/bin/Fabric` (`.exe`-suffixed on Windows); when the path is
missing it first invokes that profile's build — its configure call is always
the first event, never skipped — and when the path is present it goes straight
to launching the executable with the parameter list as argument vector; a
non-zero exit of the executable terminates the tool with status 1; when the
missing-path build succeeds the trace is exactly configure, build, launch. -/
theorem c7_run_auto_build (env : Env) (bt : String) (ps : List String)
    (hbt : bt ∈ [("debug" : String), "profile", "release"]) :
    exePath env bt =
      build_dirs_get bt ++ ("/bin/Fabric") ++ (if env.isWindows then (".exe") else ("")) ∧
    (env.pathExists (exePath env bt) = false →
      (run env bt ps).trace.head? =
        some (.configure (build_dirs_get bt) (buildVariantOf bt) (buildFlagsOf bt))) ∧
    (env.pathExists (exePath env bt) = true →
      (run env bt ps).trace = [.launch (exePath env bt) ps]) ∧
    (env.pathExists (exePath env bt) = true → env.launchRes (exePath env bt) ps = some false →
      (run env bt ps).outcome = .exited 1) ∧
    (env.pathExists (exePath env bt) = false →
      env.configureOk (build_dirs_get bt) (buildVariantOf bt) = true →
      env.buildOk (build_dirs_get bt) = true →
      (run env bt ps).trace =
        [.configure (build_dirs_get bt) (buildVariantOf bt) (buildFlagsOf bt),
         .buildCmd (build_dirs_get bt), .launch (exePath env bt) ps]) := by
  simp only [List.mem_cons, List.not_mem_nil, or_false] at hbt
  rcases hbt with rfl | rfl | rfl
  · have hlow : pyLower ("debug") = ("debug") := by decide
    have hbdg : build_dirs_get ("debug") = DEBUG_DIR := by decide
    have hvar : buildVariantOf ("debug") = ("Debug") := by decide
    have hfl : buildFlagsOf ("debug") = ["-DCMAKE_CXX_FLAGS_DEBUG=-g -O0"] := by decide
    rw [hbdg, hvar, hfl]
    refine ⟨by simp [exePath, hlow, hbdg], ?_, ?_, ?_, ?_⟩
    · intro hmiss
      cases hc : env.configureOk DEBUG_DIR ("Debug") <;>
        cases hb : env.buildOk DEBUG_DIR <;>
          simp [run, hmiss, hlow, autoBuild, debug, build, configure, seq, hc, hb,
            launchStage_trace]
    · intro hexists
      simp [run, hexists, seq, launchStage_trace]
    · intro hexists hfail
      simp [run, hexists, seq, launchStage, hfail]
    · intro hmiss hcok hbok
      simp [run, hmiss, hlow, autoBuild, debug, build, configure, seq, hcok, hbok,
        launchStage_trace]
  · have hlow : pyLower ("profile") = ("profile") := by decide
    have hbdg : build_dirs_get ("profile") = PROFILE_DIR := by decide
    have hvar : buildVariantOf ("profile") = ("RelWithDebInfo") := by decide
    have hfl : buildFlagsOf ("profile") = ["-DCMAKE_CXX_FLAGS_RELWITHDEBINFO=-g -O3"] := by decide
    rw [hbdg, hvar, hfl]
    refine ⟨by simp [exePath, hlow, hbdg], ?_, ?_, ?_, ?_⟩
    · intro hmiss
      cases hc : env.configureOk PROFILE_DIR ("RelWithDebInfo") <;>
        cases hb : env.buildOk PROFILE_DIR <;>
          simp [run, hmiss, hlow, autoBuild, profile, build, configure, seq, hc, hb,
            launchStage_trace]
    · intro hexists
      simp [run, hexists, seq, launchStage_trace]
    · intro hexists hfail
      simp [run, hexists, seq, launchStage, hfail]
    · intro hmiss hcok hbok
      simp [run, hmiss, hlow, autoBuild, profile, build, configure, seq, hcok, hbok,
        launchStage_trace]
  · have hlow : pyLower ("release") = ("release") := by decide
    have hbdg : build_dirs_get ("release") = RELEASE_DIR := by decide
    have hvar : buildVariantOf ("release") = ("Release") := by decide
    have hfl : buildFlagsOf ("release") = ["-DCMAKE_CXX_FLAGS_RELEASE=-O3"] := by decide
    rw [hbdg, hvar, hfl]
    refine ⟨by simp [exePath, hlow, hbdg], ?_, ?_, ?_, ?_⟩
    · intro hmiss
      cases hc : env.configureOk RELEASE_DIR ("Release") <;>
        cases hb : env.buildOk RELEASE_DIR <;>
          simp [run, hmiss, hlow, autoBuild, release, build, configure, seq, hc, hb,
            launchStage_trace]
    · intro hexists
      simp [run, hexists, seq, launchStage_trace]
    · intro hexists hfail
      simp [run, hexists, seq, launchStage, hfail]
    · intro hmiss hcok hbok
      simp [run, hmiss, hlow, autoBuild, release, build, configure, seq, hcok, hbok,
        launchStage_trace]

/-- C7, witness: on `env0` (no executable present, everything succeeds) running
the debug profile with one argument auto-builds first, then launches. -/
theorem c7_witness :
    (run env0 ("debug") ["a"]).trace.head? =
      some (.configure (build_dirs_get ("debug")) (buildVariantOf ("debug"))
        (buildFlagsOf ("debug"))) ∧
    (run env0 ("debug") ["a"]).trace =
      [.configure (build_dirs_get ("debug")) (buildVariantOf ("debug")) (buildFlagsOf ("debug")),
       .buildCmd (build_dirs_get ("debug")), .launch (exePath env0 ("debug")) ["a"]] :=
  ⟨(c7_run_auto_build env0 ("debug") ["a"] (by decide)).2.1 rfl,
   (c7_run_auto_build env0 ("debug") ["a"] (by decide)).2.2.2.2 rfl rfl rfl⟩

/-- C10, counterexample: with no executable on disk, `run` with the unknown
profile string `foo` does fail — the reflective global lookup raises an
uncaught `KeyError` — contradicting the claim that `run` never fails with an
unknown-profile error. -/
theorem c10_counterexample :
    (run env0 ("foo") []).outcome = .crashed ("KeyError: foo") ∧
    (run env0 ("foo") []).outcome ≠ .ok := by decide

/-- C10, amended: for a `build_type` whose lowercasing is outside
`{debug, profile, release}`, `run` does silently fall back to the debug
profile's directory when computing the executable path, and proceeds without
any unknown-profile error when that executable exists; but when the executable
is absent, the auto-build lookup `globals()[build_type.lower()]` fails with an
uncaught `KeyError` (for names that are not module globals), so the operation
does fail on unknown profiles in that case. -/
theorem c10_amended (env : Env) (bt : String) (ps : List String)
    (h : pyLower bt ∉ [("debug" : String), "profile", "release"]) :
    build_dirs_get (pyLower bt) = DEBUG_DIR ∧
    exePath env bt = DEBUG_DIR ++ ("/bin/Fabric") ++ (if env.isWindows then (".exe") else ("")) ∧
    (env.pathExists (exePath env bt) = true →
      (run env bt ps).trace = [.launch (exePath env bt) ps] ∧
      ((run env bt ps).outcome = .ok ∨ (run env bt ps).outcome = .exited 1 ∨
        (run env bt ps).outcome = .crashed ("FileNotFoundError"))) ∧
    (env.pathExists (exePath env bt) = false → pyLower bt ∉ manage_globals →
      (run env bt ps).trace = [] ∧
      (run env bt ps).outcome = .crashed (("KeyError: ") ++ pyLower bt)) := by
  simp only [List.mem_cons, List.not_mem_nil, or_false, not_or] at h
  obtain ⟨h1, h2, h3⟩ := h
  have hbdg : build_dirs_get (pyLower bt) = DEBUG_DIR := by
    simp [build_dirs_get, h1, h2, h3]
  refine ⟨hbdg, by simp [exePath, hbdg], ?_, ?_⟩
  · intro hexists
    refine ⟨by simp [run, hexists, seq, launchStage_trace], ?_⟩
    rcases hl : env.launchRes (exePath env bt) ps with _ | b
    · exact Or.inr (Or.inr (by simp [run, hexists, seq, launchStage, hl]))
    · cases b
      · exact Or.inr (Or.inl (by simp [run, hexists, seq, launchStage, hl]))
      · exact Or.inl (by simp [run, hexists, seq, launchStage, hl])
  · intro hmiss hglob
    have hab : autoBuild env (pyLower bt) =
        ⟨[], .crashed (("KeyError: ") ++ pyLower bt), env⟩ := by
      simp [autoBuild, h1, h2, h3, hglob]
    refine ⟨?_, ?_⟩ <;> simp [run, hmiss, hab, seq]

/-- C10, witness for the amended theorem: `foo` with no executable on disk. -/
theorem c10_witness :
    (run env0 ("foo") []).trace = [] ∧
    (run env0 ("foo") []).outcome = .crashed (("KeyError: ") ++ pyLower ("foo")) :=
  (c10_amended env0 ("foo") [] (by decide)).2.2.2 rfl (by decide)

end Fabric
